import Mathlib

/-!
Verification of the MayaPlugins repository (yTwist deformer node and the
xcExporterModel exporter header) against its natural-language specification.

The deformer code operates on C doubles/floats through trigonometric
functions; we model those machine numbers as real numbers, points as
triples of reals, and the Maya host API objects (`MDataBlock`,
`MDataHandle`, `MStatus`) as explicit Lean structures.  The body of
`yTwist::deform` from src/RandomCircle/RandomCircle/src/RandomPoints.cpp
is translated statement by statement: the two `inputValue` calls with
their `McheckErr` log-and-abort checks, then the geometry loop that reads
each point, applies the twist when the per-point angle is nonzero, and
writes the point back.
-/

/-- Maya status codes: success, failure, and a representative of the other
non-success codes the host may hand back from a data-access call. -/
inductive MStatus where
  | kSuccess
  | kFailure
  | kInvalidParameter
  deriving DecidableEq, Repr

/-- A point of the deformed geometry; `MPoint` coordinates (C doubles)
are modelled as reals. -/
structure MPoint where
  x : ℝ
  y : ℝ
  z : ℝ

/-- A data handle as returned by `MDataBlock::inputValue(attr, &status)`:
the status the host wrote through the out-parameter, and the numeric value
the handle carries. -/
structure MDataHandle where
  status : MStatus
  value : ℝ

/-- Reading the handle's value as a double (`MDataHandle::asDouble`). -/
def MDataHandle.asDouble (h : MDataHandle) : ℝ := h.value

/-- Reading the handle's value as a float (`MDataHandle::asFloat`);
the float is promoted to double in the arithmetic, so a single real
value models it. -/
def MDataHandle.asFloat (h : MDataHandle) : ℝ := h.value

/-- The node's datablock, restricted to the two attributes `deform`
reads: the `angle` attribute handle and the `envelope` attribute handle. -/
structure MDataBlock where
  angleHandle : MDataHandle
  envelopeHandle : MDataHandle

/-- The per-point transform of the loop body of `yTwist::deform`:
`ff = magnitude * pt.y * env; if (ff != 0.0) { cct = cos ff; cst = sin ff;
tt = pt.x*cct - pt.z*cst; pt.z = pt.x*cst + pt.z*cct; pt.x = tt; }`.
Note `pt.z` is assigned before `pt.x`, so both right-hand sides read the
original coordinates. -/
noncomputable def twistPoint (magnitude env : ℝ) (pt : MPoint) : MPoint :=
  let ff := magnitude * pt.y * env
  if ff ≠ 0 then
    let cct := Real.cos ff
    let cst := Real.sin ff
    let tt := pt.x * cct - pt.z * cst
    ⟨tt, pt.y, pt.x * cst + pt.z * cct⟩
  else
    pt

/-- The geometry loop of `yTwist::deform`: the iterator walks the
remaining points in order, and each visited point is transformed and
written back via `setPosition` (modelled by appending to the list of
points already written). -/
noncomputable def deformIterate (magnitude env : ℝ)
    (written : List MPoint) : List MPoint → List MPoint
  | [] => written
  | pt :: rest => deformIterate magnitude env (written ++ [twistPoint magnitude env pt]) rest

/-- `yTwist::deform`: reads the `angle` handle, aborting with `kFailure`
and a log message if the host reported non-success (`McheckErr`), then
the `envelope` handle likewise, then runs the geometry loop and returns
`kSuccess`.  The result carries the returned status, the messages written
to `cerr`, and the final point positions. -/
noncomputable def yTwist.deform (block : MDataBlock) (pts : List MPoint) :
    MStatus × List String × List MPoint :=
  let angleData := block.angleHandle
  if angleData.status ≠ MStatus.kSuccess then
    (MStatus.kFailure, ["Error getting angle data handle\n"], pts)
  else
    let magnitude := angleData.asDouble
    let envData := block.envelopeHandle
    if envData.status ≠ MStatus.kSuccess then
      (MStatus.kFailure, ["Error getting envelope data handle\n"], pts)
    else
      let env := envData.asFloat
      (MStatus.kSuccess, [], deformIterate magnitude env [] pts)

/-- The per-point transform with the zero-angle fast path removed: the
rotation formula is applied unconditionally.  Stated from the spec's
words for the refinement claim about the fast path. -/
noncomputable def twistPointUnconditional (magnitude env : ℝ) (pt : MPoint) : MPoint :=
  let ff := magnitude * pt.y * env
  ⟨pt.x * Real.cos ff - pt.z * Real.sin ff, pt.y,
   pt.x * Real.sin ff + pt.z * Real.cos ff⟩

/- Helper lemmas shared by the claim theorems. -/

theorem twistPoint_eq_unconditional (m e : ℝ) (p : MPoint) :
    twistPoint m e p = twistPointUnconditional m e p := by
  by_cases h : m * p.y * e = 0
  · simp [twistPoint, twistPointUnconditional, h]
  · simp [twistPoint, twistPointUnconditional, h]

theorem twistPoint_y (m e : ℝ) (p : MPoint) : (twistPoint m e p).y = p.y := by
  by_cases h : m * p.y * e = 0
  · simp [twistPoint, h]
  · simp [twistPoint, h]

theorem deformIterate_eq_append_map (m e : ℝ) (written remaining : List MPoint) :
    deformIterate m e written remaining = written ++ remaining.map (twistPoint m e) := by
  induction remaining generalizing written with
  | nil => simp [deformIterate]
  | cons p rest ih => simp [deformIterate, ih]

/-!
Embedding of `yTwist::initialize`: the attribute registration calls are
modelled as explicit state on the node class being built (the list of
registered local attributes and the registered affects edges).
-/

/-- The numeric data type passed to `MFnNumericAttribute::create`. -/
inductive MFnNumericDataKind where
  | kDouble
  | kFloat
  deriving DecidableEq, Repr

/-- A numeric attribute as built through `MFnNumericAttribute`: long
name, short name, data type, default value and keyable flag. -/
structure NumericAttributeDef where
  longName : String
  shortName : String
  dataKind : MFnNumericDataKind
  defaultValue : ℝ
  keyable : Bool

/-- `MFnNumericAttribute::create(long, short, type)`: a fresh attribute
with the host's defaults (default value 0, not keyable). -/
def MFnNumericAttribute.create (longName shortName : String)
    (kind : MFnNumericDataKind) : NumericAttributeDef :=
  ⟨longName, shortName, kind, 0, false⟩

/-- `MFnNumericAttribute::setDefault`. -/
def NumericAttributeDef.setDefault (a : NumericAttributeDef) (d : ℝ) : NumericAttributeDef :=
  ⟨a.longName, a.shortName, a.dataKind, d, a.keyable⟩

/-- `MFnNumericAttribute::setKeyable`. -/
def NumericAttributeDef.setKeyable (a : NumericAttributeDef) (k : Bool) : NumericAttributeDef :=
  ⟨a.longName, a.shortName, a.dataKind, a.defaultValue, k⟩

/-- The registration state of the node class: the node-local attributes
added by `addAttribute` and the dependency edges declared by
`attributeAffects`. -/
structure NodeClassState where
  attributes : List NumericAttributeDef
  affects : List (String × String)

/-- The node class before `yTwist::initialize` runs: nothing registered. -/
def NodeClassState.empty : NodeClassState := ⟨[], []⟩

/-- `MPxNode::addAttribute`. -/
def NodeClassState.addAttribute (s : NodeClassState) (a : NumericAttributeDef) : NodeClassState :=
  ⟨s.attributes ++ [a], s.affects⟩

/-- `MPxNode::attributeAffects`, recorded by attribute long name. -/
def NodeClassState.attributeAffects (s : NodeClassState) (src dst : String) : NodeClassState :=
  ⟨s.attributes, s.affects ++ [(src, dst)]⟩

/-- `yTwist::initialize` (renamed here): creates the `angle` attribute via
`MFnNumericAttribute::create("angle", "fa", kDouble)`, sets its default to
0.0 and makes it keyable, registers it with `addAttribute`, declares
`attributeAffects(angle, outputGeom)`, and returns `kSuccess`. -/
def yTwist.registerAttributes : MStatus × NodeClassState :=
  let nAttrAngle := MFnNumericAttribute.create "angle" "fa" MFnNumericDataKind.kDouble
  let nAttrAngle := nAttrAngle.setDefault 0.0
  let nAttrAngle := nAttrAngle.setKeyable true
  let s := NodeClassState.empty.addAttribute nAttrAngle
  let s := s.attributeAffects "angle" "outputGeom"
  (MStatus.kSuccess, s)

/-!
Embedding of the exporter translation unit
src/xcExporterModel2/xcExporterModel/include/xcExporterModel.h, which is
the only file of its module in the repository.  The class body is a pure
declaration surface, so it is modelled at the level of member
declarations: each member of `xcExporterModel`, whether the header marks
it `override`, and whether any definition of it exists anywhere in the
repository (only the inline empty constructor body exists).
-/

/-- A member declaration of the `xcExporterModel` class. -/
structure MemberDecl where
  name : String
  isOverride : Bool
  hasDefinitionInRepo : Bool
  deriving DecidableEq, Repr

/-- The member declarations of `xcExporterModel` as written in the
header, with the definition flag reflecting the whole repository: the
constructor has an inline empty body `{}`; every other member, including
the three overrides `defaultExtension`, `createPolyWriter` and
`writeHeader`, is declared but never defined. -/
def xcExporterModel.members : List MemberDecl :=
  [ ⟨"xcExporterModel", false, true⟩,
    ⟨"~xcExporterModel", true, false⟩,
    ⟨"creator", false, false⟩,
    ⟨"defaultExtension", true, false⟩,
    ⟨"initializePlugin", false, false⟩,
    ⟨"uninitializePlugin", false, false⟩,
    ⟨"createPolyWriter", true, false⟩,
    ⟨"writeHeader", true, false⟩ ]

/-- The override surface the spec names for the exporter model. -/
def xcExporterModel.overrideSurface : List String :=
  ["defaultExtension", "createPolyWriter", "writeHeader"]

/-!
Claim theorems.
-/

/-- C1: for every input point `(x, y, z)` iterated by `yTwist::deform`,
with `magnitude` the value of the angle attribute and `env` the envelope
value, the output position satisfies `x' = x·cos θ − z·sin θ` and
`z' = x·sin θ + z·cos θ`, where `θ = magnitude · y · env`. -/
theorem yTwist.deform_rotation_formula (block : MDataBlock) (pts : List MPoint)
    (i : ℕ) (p : MPoint)
    (hA : block.angleHandle.status = MStatus.kSuccess)
    (hE : block.envelopeHandle.status = MStatus.kSuccess)
    (hp : pts[i]? = some p) :
    ((yTwist.deform block pts).2.2)[i]? =
      some ⟨p.x * Real.cos (block.angleHandle.asDouble * p.y * block.envelopeHandle.asFloat)
              - p.z * Real.sin (block.angleHandle.asDouble * p.y * block.envelopeHandle.asFloat),
            p.y,
            p.x * Real.sin (block.angleHandle.asDouble * p.y * block.envelopeHandle.asFloat)
              + p.z * Real.cos (block.angleHandle.asDouble * p.y * block.envelopeHandle.asFloat)⟩ := by
  simp only [yTwist.deform, hA, hE, ne_eq, not_true_eq_false, if_false,
    deformIterate_eq_append_map, List.nil_append]
  rw [List.getElem?_map, hp]
  simp only [Option.map_some']
  rw [twistPoint_eq_unconditional]
  rfl

/-- C1 witness: the formula evaluated at a concrete block and point. -/
theorem yTwist.deform_rotation_formula_witness :
    ((yTwist.deform ⟨⟨MStatus.kSuccess, 0⟩, ⟨MStatus.kSuccess, 1⟩⟩ [⟨1, 2, 3⟩]).2.2)[0]? =
      some ⟨1 * Real.cos ((0 : ℝ) * 2 * 1) - 3 * Real.sin ((0 : ℝ) * 2 * 1), 2,
            1 * Real.sin ((0 : ℝ) * 2 * 1) + 3 * Real.cos ((0 : ℝ) * 2 * 1)⟩ :=
  yTwist.deform_rotation_formula ⟨⟨MStatus.kSuccess, 0⟩, ⟨MStatus.kSuccess, 1⟩⟩
    [⟨1, 2, 3⟩] 0 ⟨1, 2, 3⟩ rfl rfl rfl

/-- C2: if the angle attribute value is 0 or the envelope value is 0,
`yTwist::deform` is the identity on geometry: every output position
equals its input position. -/
theorem yTwist.deform_identity_when_zero (block : MDataBlock) (pts : List MPoint)
    (h : block.angleHandle.asDouble = 0 ∨ block.envelopeHandle.asFloat = 0) :
    (yTwist.deform block pts).2.2 = pts := by
  by_cases hA : block.angleHandle.status = MStatus.kSuccess
  · by_cases hE : block.envelopeHandle.status = MStatus.kSuccess
    · simp only [yTwist.deform, hA, hE, ne_eq, not_true_eq_false, if_false,
        deformIterate_eq_append_map, List.nil_append]
      have hpt : ∀ p : MPoint,
          twistPoint block.angleHandle.asDouble block.envelopeHandle.asFloat p = p := by
        intro p
        rcases h with h0 | h0 <;> simp [twistPoint, h0]
      induction pts with
      | nil => simp
      | cons q rest ih => simp [hpt, ih]
    · simp [yTwist.deform, hA, hE]
  · simp [yTwist.deform, hA]

/-- C2 witness: a block whose angle value is 0 leaves a concrete point
list unchanged. -/
theorem yTwist.deform_identity_when_zero_witness :
    (yTwist.deform ⟨⟨MStatus.kSuccess, 0⟩, ⟨MStatus.kSuccess, 1⟩⟩ [⟨1, 2, 3⟩]).2.2
      = [⟨1, 2, 3⟩] :=
  yTwist.deform_identity_when_zero ⟨⟨MStatus.kSuccess, 0⟩, ⟨MStatus.kSuccess, 1⟩⟩
    [⟨1, 2, 3⟩] (Or.inl rfl)

/-- C3: the per-point transform applied by `yTwist::deform` preserves
`x² + z²`. -/
theorem twistPoint_preserves_radius_sq (m e : ℝ) (p : MPoint) :
    (twistPoint m e p).x ^ 2 + (twistPoint m e p).z ^ 2 = p.x ^ 2 + p.z ^ 2 := by
  rw [twistPoint_eq_unconditional]
  show (p.x * Real.cos (m * p.y * e) - p.z * Real.sin (m * p.y * e)) ^ 2
      + (p.x * Real.sin (m * p.y * e) + p.z * Real.cos (m * p.y * e)) ^ 2
      = p.x ^ 2 + p.z ^ 2
  have h := Real.sin_sq_add_cos_sq (m * p.y * e)
  linear_combination (p.x ^ 2 + p.z ^ 2) * h

/-- C5: the only branch of the deformation loop, the zero-angle fast
path, is behaviour-preserving: the per-point transform with the skip
equals the one applying the rotation formula unconditionally, for every
point. -/
theorem twistPoint_fast_path_equiv (m e : ℝ) (p : MPoint) :
    twistPoint m e p = twistPointUnconditional m e p := by
  by_cases h : m * p.y * e = 0
  · simp [twistPoint, twistPointUnconditional, h]
  · simp [twistPoint, twistPointUnconditional, h]

/-- C6: `yTwist::deform` rotates around the y axis only: the y
coordinates of the output positions equal those of the input positions,
for every block (all angle and envelope values, all statuses). -/
theorem yTwist.deform_preserves_y (block : MDataBlock) (pts : List MPoint) :
    ((yTwist.deform block pts).2.2).map MPoint.y = pts.map MPoint.y := by
  by_cases hA : block.angleHandle.status = MStatus.kSuccess
  · by_cases hE : block.envelopeHandle.status = MStatus.kSuccess
    · simp [yTwist.deform, hA, hE, deformIterate_eq_append_map,
        List.map_map, Function.comp, twistPoint_y]
    · simp [yTwist.deform, hA, hE]
  · simp [yTwist.deform, hA]

/-- C7: the geometry loop carries no state between iterations: its
result on any list of input points is the pointwise map of the single
pure per-point transform, so each output depends only on that point's
position and the angle and envelope values. -/
theorem yTwist.deform_loop_is_map (m e : ℝ) (pts : List MPoint) :
    deformIterate m e [] pts = pts.map (twistPoint m e) := by
  simpa using deformIterate_eq_append_map m e [] pts

/-- C4: `yTwist::deform` returns a non-success status exactly when one of
the two host data-access reads reports non-success; the returned status
is then always `kFailure` (never the host's own code forwarded and never
another code), a message is logged exactly in that case, and otherwise
the return is `kSuccess`. -/
theorem yTwist.deform_status_spec (block : MDataBlock) (pts : List MPoint) :
    ((yTwist.deform block pts).1 = MStatus.kSuccess ↔
      (block.angleHandle.status = MStatus.kSuccess ∧
       block.envelopeHandle.status = MStatus.kSuccess))
    ∧ ((yTwist.deform block pts).1 = MStatus.kSuccess ∨
       (yTwist.deform block pts).1 = MStatus.kFailure)
    ∧ (¬ (yTwist.deform block pts).1 = MStatus.kSuccess ↔
       (yTwist.deform block pts).2.1 ≠ []) := by
  by_cases hA : block.angleHandle.status = MStatus.kSuccess
  · by_cases hE : block.envelopeHandle.status = MStatus.kSuccess
    · simp [yTwist.deform, hA, hE]
    · simp [yTwist.deform, hA, hE]
  · simp [yTwist.deform, hA]

/-- C8: `yTwist::initialize` registers exactly one node-local attribute,
a double numeric attribute with long name "angle", default 0.0, keyable,
declares that it affects `outputGeom`, and returns `kSuccess`. -/
theorem yTwist.registerAttributes_spec :
    yTwist.registerAttributes.1 = MStatus.kSuccess
    ∧ yTwist.registerAttributes.2.attributes.map NumericAttributeDef.longName = ["angle"]
    ∧ yTwist.registerAttributes.2.attributes.map NumericAttributeDef.dataKind
        = [MFnNumericDataKind.kDouble]
    ∧ yTwist.registerAttributes.2.attributes.map NumericAttributeDef.defaultValue = [(0.0 : ℝ)]
    ∧ yTwist.registerAttributes.2.attributes.map NumericAttributeDef.keyable = [true]
    ∧ yTwist.registerAttributes.2.affects = [("angle", "outputGeom")] :=
  ⟨rfl, rfl, rfl, rfl, rfl, rfl⟩

/-- C9: `yTwist::deform` is atomic on error: both attribute reads happen
before the geometry loop, so when either read fails every point position
is returned unchanged. -/
theorem yTwist.deform_atomic_on_error (block : MDataBlock) (pts : List MPoint)
    (h : block.angleHandle.status ≠ MStatus.kSuccess ∨
         block.envelopeHandle.status ≠ MStatus.kSuccess) :
    (yTwist.deform block pts).2.2 = pts := by
  by_cases hA : block.angleHandle.status = MStatus.kSuccess
  · rcases h with h | h
    · exact absurd hA h
    · simp [yTwist.deform, hA, h]
  · simp [yTwist.deform, hA]

/-- C9 witness: a failing angle read leaves a concrete point list
untouched. -/
theorem yTwist.deform_atomic_on_error_witness :
    (yTwist.deform ⟨⟨MStatus.kFailure, 5⟩, ⟨MStatus.kSuccess, 1⟩⟩ [⟨1, 2, 3⟩]).2.2
      = [⟨1, 2, 3⟩] :=
  yTwist.deform_atomic_on_error ⟨⟨MStatus.kFailure, 5⟩, ⟨MStatus.kSuccess, 1⟩⟩
    [⟨1, 2, 3⟩] (Or.inl (by decide))

/-- C10: the exporter translation unit is a stub: `xcExporterModel`
declares `defaultExtension`, `createPolyWriter` and `writeHeader` as
overrides, none of the three has a definition anywhere in the
repository, and the only member with a body at all is the trivial empty
constructor. -/
theorem xcExporterModel.exporter_is_stub :
    (xcExporterModel.overrideSurface.all (fun n =>
      xcExporterModel.members.any (fun m =>
        m.name == n && m.isOverride && !m.hasDefinitionInRepo))) = true
    ∧ (xcExporterModel.members.all (fun m =>
        !m.hasDefinitionInRepo || m.name == "xcExporterModel")) = true := by
  exact ⟨by decide, by decide⟩
